import Mathlib

/-!
Verification development for the xcp_d repository.

The definitions below are shallow embeddings of functions from
`xcp_d/utils/bids.py`, `xcp_abcd/workflow/connectivity.py` and
`xcp_d/cli/run.py`.  Python strings become `String`, Python lists become
`List`, Python dicts with a fixed key set become structures or association
lists, raised exceptions become `Except`/`Option` error values, and reads
of unbound local variables are modelled as a dedicated error outcome.
-/

/-! ## Python substring containment

`strContains hay needle` models the Python expression `needle in hay`
for strings: it is true exactly when `needle` occurs as a contiguous
substring of `hay` (in particular, the empty string is contained in
every string, as in Python). -/

/-- Check whether `needle` occurs as a contiguous sublist of `hay`. -/
def listContainsSub (needle : List Char) : List Char → Bool
  | [] => needle.isEmpty
  | c :: rest => needle.isPrefixOf (c :: rest) || listContainsSub needle rest

/-- Python `needle in hay` on strings: substring containment. -/
def strContains (hay needle : String) : Bool :=
  listContainsSub needle.data hay.data

theorem listContainsSub_nil_needle (l : List Char) : listContainsSub [] l = true := by
  induction l with
  | nil => rfl
  | cons c rest ih => simp [listContainsSub, List.isPrefixOf]

theorem strContains_empty_needle (s : String) : strContains s "" = true := by
  simp [strContains, listContainsSub_nil_needle]

/-! ## Transform-file selection in `init_fcon_ts_wf`
(`xcp_abcd/workflow/connectivity.py`, lines 117-123)

The Python code is:

```
file_base = os.path.basename(str(bold_file))
if template in file_base:
    transformfile = 'identity'
elif 'T1w' in file_base:
    transformfile = str(inputnode.inputs.mni_to_t1w)
elif not  template  or  'T1w' in file_base:
    transformfile = [str(inputnode.inputs.mni_to_t1w), str(t1w_to_native)]
```

`transformfile` ends up being either a single transform (a string) or a
list of two transforms; when no branch fires, the local variable is left
unbound and the later read of `transformfile` raises `NameError`, which
we model with `Option.none`. -/

/-- Value of the Python local `transformfile`: a single transform name or
a two-element chain. -/
inductive Transformfile where
  | single (t : String)
  | pair (t1 t2 : String)
  deriving DecidableEq, Repr

/-- Embedding of the `if`/`elif` chain that assigns `transformfile` in
`init_fcon_ts_wf`.  `none` means the Python local was never assigned
(reading it raises `NameError`). -/
def selectTransformfile (template fileBase mniToT1w t1wToNative : String) :
    Option Transformfile :=
  if strContains fileBase template then
    some (Transformfile.single "identity")
  else if strContains fileBase "T1w" then
    some (Transformfile.single mniToT1w)
  else if (template == "") || strContains fileBase "T1w" then
    some (Transformfile.pair mniToT1w t1wToNative)
  else
    none

/-- Boolean test for the two-element chain outcome. -/
def isPairTf : Option Transformfile → Bool
  | some (Transformfile.pair _ _) => true
  | _ => false

/-- C1: the claim says a native-space BOLD file (basename contains neither
the template name nor `T1w`) yields the two-element chain
`[mni_to_t1w, t1w_to_native]`.  The code instead leaves `transformfile`
unassigned there (so using it raises `NameError`): the two-element branch
is unreachable, because its guard `not template or 'T1w' in file_base`
can only hold in a state its preceding branches already captured.  The
first conjunct evaluates the embedded branch chain at a concrete
native-space input; the second proves that no input whatsoever produces
the two-element chain. -/
theorem selectTransformfile_native_space_unassigned :
    selectTransformfile "MNI152NLin2009cAsym" "sub-01_task-rest_bold.nii.gz"
      "from-MNI152NLin2009cAsym_to-T1w_mode-image_xfm.h5"
      "t1w_to_native.txt" = none
    ∧ ∀ template fileBase mniToT1w t1wToNative,
        isPairTf (selectTransformfile template fileBase mniToT1w t1wToNative) = false := by
  constructor
  · rfl
  · intro template fileBase mniToT1w t1wToNative
    unfold selectTransformfile
    cases h1 : strContains fileBase template with
    | true => simp [h1, isPairTf]
    | false =>
      cases h2 : strContains fileBase "T1w" with
      | true => simp [h1, h2, isPairTf]
      | false =>
        cases h3 : template == "" with
        | false => simp [h1, h2, h3, isPairTf]
        | true =>
          exfalso
          have ht : template = "" := by
            simpa using h3
          rw [ht] at h1
          rw [strContains_empty_needle fileBase] at h1
          simp at h1

/-- C2: whenever the BOLD file basename contains the template name, the
assigned transform chain is exactly the single identity transform. -/
theorem selectTransformfile_template_identity
    (template fileBase mniToT1w t1wToNative : String)
    (h : strContains fileBase template = true) :
    selectTransformfile template fileBase mniToT1w t1wToNative =
      some (Transformfile.single "identity") := by
  simp [selectTransformfile, h]

/-- C2 witness: a BOLD file whose basename contains `MNI152NLin6Asym`
receives the identity transform. -/
theorem selectTransformfile_template_identity_witness :
    strContains "sub-01_task-rest_space-MNI152NLin6Asym_desc-clean_bold.nii.gz"
      "MNI152NLin6Asym" = true
    ∧ selectTransformfile "MNI152NLin6Asym"
        "sub-01_task-rest_space-MNI152NLin6Asym_desc-clean_bold.nii.gz"
        "mni2t1w.h5" "t1w2native.txt" = some (Transformfile.single "identity") :=
  ⟨by decide, selectTransformfile_template_identity "MNI152NLin6Asym"
    "sub-01_task-rest_space-MNI152NLin6Asym_desc-clean_bold.nii.gz"
    "mni2t1w.h5" "t1w2native.txt" (by decide)⟩

/-! ## `select_registrationfile` (`xcp_d/utils/bids.py`, lines 240-282)

The Python loop is:

```
template1 = "MNI152NLin6Asym"
template2 = "MNI152NLin2009cAsym"
template3 = "MNIInfant"
mni_to_t1w = None
t1w_to_mni = None
for j in regfile:
    if ("from-" + template1 in j
            or ("from-" + template2 in j and mni_to_t1w is None)
            or ("from-" + template3 in j and mni_to_t1w is None)):
        mni_to_t1w = j
    elif ("to-" + template1 in j
            or ("to-" + template2 in j and t1w_to_mni is None)
            or ("to-" + template3 in j and t1w_to_mni is None)):
        t1w_to_mni = j
return mni_to_t1w, t1w_to_mni
```
-/

/-- Default template for fmriprep / nibabies with cifti output. -/
def template1 : String := "MNI152NLin6Asym"

/-- Default template for fmriprep, dcan and hcp. -/
def template2 : String := "MNI152NLin2009cAsym"

/-- Template used by nibabies. -/
def template3 : String := "MNIInfant"

/-- Entry names the primary template as source space. -/
def fromMatch6 (j : String) : Bool := strContains j ("from-" ++ template1)

/-- Entry names one of the fallback templates as source space. -/
def fromMatchFallback (j : String) : Bool :=
  strContains j ("from-" ++ template2) || strContains j ("from-" ++ template3)

/-- Entry names the primary template as destination space. -/
def toMatch6 (j : String) : Bool := strContains j ("to-" ++ template1)

/-- Entry names one of the fallback templates as destination space. -/
def toMatchFallback (j : String) : Bool :=
  strContains j ("to-" ++ template2) || strContains j ("to-" ++ template3)

/-- The `for j in regfile` loop of `select_registrationfile`, with the two
accumulators `mni_to_t1w` and `t1w_to_mni`. -/
def regLoop : List String → Option String → Option String → Option String × Option String
  | [], mni, t1w => (mni, t1w)
  | j :: rest, mni, t1w =>
    if fromMatch6 j
        || (strContains j ("from-" ++ template2) && mni.isNone)
        || (strContains j ("from-" ++ template3) && mni.isNone) then
      regLoop rest (some j) t1w
    else if toMatch6 j
        || (strContains j ("to-" ++ template2) && t1w.isNone)
        || (strContains j ("to-" ++ template3) && t1w.isNone) then
      regLoop rest mni (some j)
    else
      regLoop rest mni t1w

/-- `select_registrationfile`: returns `(mni_to_t1w, t1w_to_mni)`. -/
def select_registrationfile (regfile : List String) : Option String × Option String :=
  regLoop regfile none none

/-! Specification-side definitions, following the words of the claim. -/

/-- First non-`none` of two options (Python-style "x if x is not None else y"). -/
def oOr : Option String → Option String → Option String
  | some x, _ => some x
  | none, y => y

@[simp]
theorem oOr_some (x : String) (y : Option String) : oOr (some x) y = some x := rfl

@[simp]
theorem oOr_none (y : Option String) : oOr none y = y := rfl

@[simp]
theorem oOr_none_right (x : Option String) : oOr x none = x := by
  cases x <;> rfl

/-- Last entry of the list satisfying the predicate, if any. -/
def lastSuch (p : String → Bool) : List String → Option String
  | [] => none
  | j :: rest => oOr (lastSuch p rest) (if p j then some j else none)

/-- Entries that are never claimed as `mni_to_t1w` by the first branch of
the loop: an entry is claimed when it matches the primary template as
source, or when it matches a fallback template as source while
`mni_to_t1w` is still unset (`mniSet` tracks that state). -/
def unclaimedEntries : List String → Bool → List String
  | [], _ => []
  | j :: rest, mniSet =>
    if fromMatch6 j || (fromMatchFallback j && !mniSet) then
      unclaimedEntries rest true
    else
      j :: unclaimedEntries rest mniSet

/-- Claimed value per the claim: the last entry containing
`from-MNI152NLin6Asym` if any entry does, otherwise the first entry
containing `from-MNI152NLin2009cAsym` or `from-MNIInfant`. -/
def mniToT1wSpec (regfile : List String) : Option String :=
  oOr (lastSuch fromMatch6 regfile) (regfile.find? fromMatchFallback)

/-- Claimed value per the claim: among entries not claimed as
`mni_to_t1w`, the last entry containing `to-MNI152NLin6Asym`, or else the
first such entry containing `to-MNI152NLin2009cAsym` or `to-MNIInfant`. -/
def t1wToMniSpec (regfile : List String) : Option String :=
  oOr (lastSuch toMatch6 (unclaimedEntries regfile false))
    ((unclaimedEntries regfile false).find? toMatchFallback)

theorem regLoop_cons (j : String) (rest : List String) (mni t1w : Option String) :
    regLoop (j :: rest) mni t1w =
      if fromMatch6 j || (fromMatchFallback j && mni.isNone) then
        regLoop rest (some j) t1w
      else if toMatch6 j || (toMatchFallback j && t1w.isNone) then
        regLoop rest mni (some j)
      else
        regLoop rest mni t1w := by
  simp only [regLoop, fromMatchFallback, toMatchFallback, Bool.and_or_distrib_right,
    Bool.or_assoc]

theorem oOr_absorb (a : Option String) (x : String) (z : Option String) :
    oOr (oOr a (some x)) z = oOr a (some x) := by
  cases a <;> rfl

theorem regLoop_fst (l : List String) : ∀ (mni t1w : Option String),
    (regLoop l mni t1w).1 =
      oOr (lastSuch fromMatch6 l) (oOr mni (l.find? fromMatchFallback)) := by
  induction l with
  | nil =>
    intro mni t1w
    simp [regLoop, lastSuch]
  | cons j rest ih =>
    intro mni t1w
    rw [regLoop_cons]
    cases mni <;> cases hf : fromMatch6 j <;> cases hfb : fromMatchFallback j <;>
      cases ht : (toMatch6 j || (toMatchFallback j && t1w.isNone)) <;>
      simp [hf, hfb, ht, ih, lastSuch, List.find?_cons, oOr_absorb]

theorem regLoop_snd (l : List String) : ∀ (mni t1w : Option String),
    (regLoop l mni t1w).2 =
      oOr (lastSuch toMatch6 (unclaimedEntries l mni.isSome))
        (oOr t1w ((unclaimedEntries l mni.isSome).find? toMatchFallback)) := by
  induction l with
  | nil =>
    intro mni t1w
    simp [regLoop, unclaimedEntries, lastSuch]
  | cons j rest ih =>
    intro mni t1w
    rw [regLoop_cons]
    cases mni <;> cases t1w <;> cases hf : fromMatch6 j <;>
      cases hfb : fromMatchFallback j <;> cases ht : toMatch6 j <;>
      cases htb : toMatchFallback j <;>
      simp [hf, hfb, ht, htb, ih, unclaimedEntries, lastSuch, List.find?_cons, oOr_absorb]

/-- C3: `select_registrationfile` is deterministic with the claimed
tie-breaking rule: `mni_to_t1w` is the last entry containing
`from-MNI152NLin6Asym` if any entry does, otherwise the first entry
containing `from-MNI152NLin2009cAsym` or `from-MNIInfant`; `t1w_to_mni`
is, among the entries not claimed by the `mni_to_t1w` branch, the last
one containing `to-MNI152NLin6Asym`, or else the first one containing
`to-MNI152NLin2009cAsym` or `to-MNIInfant`; each slot is `none` when
nothing matches. -/
theorem select_registrationfile_tiebreak (regfile : List String) :
    select_registrationfile regfile = (mniToT1wSpec regfile, t1wToMniSpec regfile) := by
  have h1 := regLoop_fst regfile none none
  have h2 := regLoop_snd regfile none none
  simp only [oOr_none] at h1 h2
  unfold select_registrationfile mniToT1wSpec t1wToMniSpec
  rw [Prod.ext_iff]
  exact ⟨h1, h2⟩

/-! ## Workflow wiring of `init_fcon_ts_wf` and `init_cifti_conts_wf`
(`xcp_abcd/workflow/connectivity.py`, lines 154-186 and 278-298)

Each `workflow.connect` entry `(src, dst, [(srcPort, dstPort), ...])` is
embedded as one `WfEdge` per port pair, with the Nipype node names given
to `pe.Node(..., name=...)` (`inputnode` / `outputnode` come from the
`IdentityInterface` nodes). -/

/-- One data connection of a Nipype workflow graph. -/
structure WfEdge where
  src : String
  srcPort : String
  dst : String
  dstPort : String
  deriving DecidableEq, Repr

/-- The `workflow.connect` list of `init_fcon_ts_wf`. -/
def fcon_ts_wf_edges : List WfEdge :=
  [⟨"inputnode", "ref_file", "apply_tranform_sc27", "reference_image"⟩,
   ⟨"inputnode", "ref_file", "apply_tranform_sc47", "reference_image"⟩,
   ⟨"inputnode", "ref_file", "apply_tranform_gs36", "reference_image"⟩,
   ⟨"inputnode", "ref_file", "apply_tranform_gd33", "reference_image"⟩,
   ⟨"inputnode", "clean_bold", "sc27_connect", "regressed_file"⟩,
   ⟨"inputnode", "clean_bold", "sc47_connect", "regressed_file"⟩,
   ⟨"inputnode", "clean_bold", "gd33_connect", "regressed_file"⟩,
   ⟨"inputnode", "clean_bold", "gs36_connect", "regressed_file"⟩,
   ⟨"apply_tranform_sc27", "output_image", "sc27_connect", "atlas"⟩,
   ⟨"apply_tranform_sc47", "output_image", "sc47_connect", "atlas"⟩,
   ⟨"apply_tranform_gd33", "output_image", "gd33_connect", "atlas"⟩,
   ⟨"apply_tranform_gs36", "output_image", "gs36_connect", "atlas"⟩,
   ⟨"sc27_connect", "time_series_tsv", "outputnode", "sc207_ts"⟩,
   ⟨"sc27_connect", "fcon_matrix_tsv", "outputnode", "sc207_fc"⟩,
   ⟨"sc47_connect", "time_series_tsv", "outputnode", "sc407_ts"⟩,
   ⟨"sc47_connect", "fcon_matrix_tsv", "outputnode", "sc407_fc"⟩,
   ⟨"gs36_connect", "time_series_tsv", "outputnode", "gs360_ts"⟩,
   ⟨"gs36_connect", "fcon_matrix_tsv", "outputnode", "gs360_fc"⟩,
   ⟨"gs36_connect", "time_series_tsv", "outputnode", "gd333_ts"⟩,
   ⟨"gs36_connect", "fcon_matrix_tsv", "outputnode", "gd333_fc"⟩]

/-- The `workflow.connect` list of `init_cifti_conts_wf`. -/
def cifti_conts_wf_edges : List WfEdge :=
  [⟨"inputnode", "clean_cifti", "sc207parcel", "in_file"⟩,
   ⟨"inputnode", "clean_cifti", "sc407parcel", "in_file"⟩,
   ⟨"inputnode", "clean_cifti", "gd333parcel", "in_file"⟩,
   ⟨"inputnode", "clean_cifti", "gs360parcel", "in_file"⟩,
   ⟨"sc207parcel", "out_file", "outputnode", "sc207_ts"⟩,
   ⟨"sc407parcel", "out_file", "outputnode", "sc407_ts"⟩,
   ⟨"gs360parcel", "out_file", "outputnode", "gs360_ts"⟩,
   ⟨"gd333parcel", "out_file", "outputnode", "gd333_ts"⟩,
   ⟨"sc207parcel", "out_file", "sc207corr", "in_file"⟩,
   ⟨"sc407parcel", "out_file", "sc407corr", "in_file"⟩,
   ⟨"gs360parcel", "out_file", "gs360corr", "in_file"⟩,
   ⟨"gd333parcel", "out_file", "gd333corr", "in_file"⟩,
   ⟨"sc207corr", "out_file", "outputnode", "sc207_fc"⟩,
   ⟨"sc407corr", "out_file", "outputnode", "sc407_fc"⟩,
   ⟨"gs360corr", "out_file", "outputnode", "gs360_fc"⟩,
   ⟨"gd333corr", "out_file", "outputnode", "gd333_fc"⟩]

/-- Source nodes of all edges feeding a given output port of `outputnode`. -/
def outputSources (edges : List WfEdge) (port : String) : List String :=
  (edges.filter (fun e => e.dst == "outputnode" && e.dstPort == port)).map WfEdge.src

/-- C4: the claim says each atlas output pair comes from that atlas's own
extraction node, e.g. `gd333_ts`/`gd333_fc` from the Gordon-333 node.  In
`init_fcon_ts_wf` the Gordon outputs are instead wired from the
Glasser-360 node `gs36_connect` (the Gordon node `gd33_connect` feeds no
output), while the other three atlases and all of `init_cifti_conts_wf`
are wired from their own nodes as claimed. -/
theorem fcon_gd333_outputs_from_glasser_node :
    outputSources fcon_ts_wf_edges "gd333_ts" = ["gs36_connect"]
    ∧ outputSources fcon_ts_wf_edges "gd333_fc" = ["gs36_connect"]
    ∧ outputSources fcon_ts_wf_edges "gs360_ts" = ["gs36_connect"]
    ∧ outputSources fcon_ts_wf_edges "sc207_ts" = ["sc27_connect"]
    ∧ outputSources fcon_ts_wf_edges "sc407_ts" = ["sc47_connect"]
    ∧ (fcon_ts_wf_edges.filter (fun e => e.src == "gd33_connect"
        && e.dst == "outputnode")) = []
    ∧ outputSources cifti_conts_wf_edges "gd333_ts" = ["gd333parcel"]
    ∧ outputSources cifti_conts_wf_edges "gd333_fc" = ["gd333corr"] := by
  refine ⟨rfl, rfl, rfl, rfl, rfl, rfl, rfl, rfl⟩

/-! ## BOLD space selection in `collect_data`
(`xcp_d/utils/bids.py`, lines 158-213)

The relevant Python code is:

```
PREFERRED_SPACES = {
    False: ["MNI152NLin6Asym", "MNI152NLin2009cAsym", "MNIInfant"],
    True: ["fsLR"],
}
allowed_spaces = PREFERRED_SPACES[cifti]
...
if "space" not in queries["bold"]:
    for space in allowed_spaces:
        bold_data = layout.get(space=space, **queries["bold"])
        if bold_data:
            queries["bold"]["space"] = space
            break

if not bold_data:
    allowed_space_str = ", ".join(allowed_spaces)
    raise ValueError(f"No BOLD data found in allowed spaces ({allowed_space_str}).")
```

The layout is abstracted by `hasBold : String → Bool` (whether the BOLD
query returns any file for a given space).  The local `bold_data` is only
assigned inside the loop, so when the loop is skipped (a `space` filter
was supplied via `bids_filters`) the final check reads an unbound local
and raises `NameError`. -/

/-- The fixed preference order of template spaces. -/
def PREFERRED_SPACES (cifti : Bool) : List String :=
  if cifti then ["fsLR"] else ["MNI152NLin6Asym", "MNI152NLin2009cAsym", "MNIInfant"]

/-- State of the two Python locals around the space-selection loop:
`queries["bold"]["space"]` and `bold_data` (`none` = unbound). -/
structure SpaceQueryState where
  space : Option String
  bold_data : Option Bool
  deriving DecidableEq, Repr

/-- The `for space in allowed_spaces` loop with its `break`. -/
def spaceSelectionLoop (hasBold : String → Bool) (st : SpaceQueryState) :
    List String → SpaceQueryState
  | [] => st
  | sp :: rest =>
    if hasBold sp then { space := some sp, bold_data := some true }
    else spaceSelectionLoop hasBold { st with bold_data := some false } rest

/-- Outcome of the space-selection section of `collect_data`. -/
inductive SpaceResult where
  | ok (space : String)
  | valueError (msg : String)
  | nameError
  deriving DecidableEq, Repr

/-- Space selection and the no-BOLD-data check of `collect_data`:
`filterSpace` is the `space` entity supplied through `bids_filters`, if
any. -/
def collect_data_space (hasBold : String → Bool) (cifti : Bool)
    (filterSpace : Option String) : SpaceResult :=
  let init : SpaceQueryState := { space := filterSpace, bold_data := none }
  let st :=
    match filterSpace with
    | some _ => init
    | none => spaceSelectionLoop hasBold init (PREFERRED_SPACES cifti)
  match st.bold_data with
  | none => SpaceResult.nameError
  | some false =>
    SpaceResult.valueError
      ("No BOLD data found in allowed spaces ("
        ++ String.intercalate ", " (PREFERRED_SPACES cifti) ++ ").")
  | some true =>
    match st.space with
    | some sp => SpaceResult.ok sp
    | none => SpaceResult.nameError

theorem spaceSelectionLoop_found (hasBold : String → Bool) :
    ∀ (spaces : List String) (st : SpaceQueryState) (sp : String),
      spaces.find? hasBold = some sp →
      spaceSelectionLoop hasBold st spaces = { space := some sp, bold_data := some true } := by
  intro spaces
  induction spaces with
  | nil => intro st sp h; simp at h
  | cons a rest ih =>
    intro st sp h
    rw [List.find?_cons] at h
    cases ha : hasBold a with
    | true =>
      rw [ha] at h
      simp only [Option.some.injEq] at h
      subst h
      simp [spaceSelectionLoop, ha]
    | false =>
      rw [ha] at h
      simp only [spaceSelectionLoop, ha, Bool.false_eq_true, if_false]
      exact ih _ sp h

theorem spaceSelectionLoop_not_found (hasBold : String → Bool) :
    ∀ (spaces : List String) (st : SpaceQueryState),
      spaces ≠ [] → spaces.find? hasBold = none →
      spaceSelectionLoop hasBold st spaces =
        { space := st.space, bold_data := some false } := by
  intro spaces
  induction spaces with
  | nil => intro st hne h; exact absurd rfl hne
  | cons a rest ih =>
    intro st hne h
    rw [List.find?_cons] at h
    cases ha : hasBold a with
    | true => rw [ha] at h; simp at h
    | false =>
      rw [ha] at h
      simp only [spaceSelectionLoop, ha, Bool.false_eq_true, if_false]
      cases rest with
      | nil => simp [spaceSelectionLoop]
      | cons b tail => exact ih _ (by simp) h

/-- C5: with no explicit `space` filter, the BOLD query space is the first
space in the fixed preference order (`MNI152NLin6Asym`,
`MNI152NLin2009cAsym`, `MNIInfant` for NIfTI; `fsLR` for CIFTI) for which
BOLD data exist, and when no allowed space has BOLD data the call raises
`ValueError` naming the allowed spaces. -/
theorem collect_data_space_selection (hasBold : String → Bool) (cifti : Bool) :
    (∀ sp, (PREFERRED_SPACES cifti).find? hasBold = some sp →
      collect_data_space hasBold cifti none = SpaceResult.ok sp)
    ∧ ((PREFERRED_SPACES cifti).find? hasBold = none →
      collect_data_space hasBold cifti none =
        SpaceResult.valueError
          ("No BOLD data found in allowed spaces ("
            ++ String.intercalate ", " (PREFERRED_SPACES cifti) ++ ").")) := by
  constructor
  · intro sp h
    simp only [collect_data_space]
    rw [spaceSelectionLoop_found hasBold _ _ sp h]
  · intro h
    simp only [collect_data_space]
    rw [spaceSelectionLoop_not_found hasBold _ _ (by cases cifti <;> simp [PREFERRED_SPACES]) h]

/-- C5 witness: with data only in `MNI152NLin2009cAsym`, the NIfTI query
selects that space; with data nowhere, the call reports the ValueError
listing the three allowed NIfTI spaces. -/
theorem collect_data_space_selection_witness :
    collect_data_space (fun sp => sp == "MNI152NLin2009cAsym") false none =
      SpaceResult.ok "MNI152NLin2009cAsym"
    ∧ collect_data_space (fun _ => false) false none =
      SpaceResult.valueError
        ("No BOLD data found in allowed spaces ("
          ++ String.intercalate ", "
            ["MNI152NLin6Asym", "MNI152NLin2009cAsym", "MNIInfant"] ++ ").") :=
  ⟨(collect_data_space_selection (fun sp => sp == "MNI152NLin2009cAsym") false).1
      "MNI152NLin2009cAsym" (by decide),
    (collect_data_space_selection (fun _ => false) false).2 (by decide)⟩

/-- C8: when a `space` entity is supplied through `bids_filters`, the
space-selection loop is skipped and the `if not bold_data` check reads an
unbound local, so `collect_data` raises `NameError` rather than
proceeding or raising the documented `ValueError`; conversely the
no-BOLD-data `ValueError` is only reachable with no `space` filter. -/
theorem collect_data_space_filter_nameError (hasBold : String → Bool) (cifti : Bool) :
    (∀ sp, collect_data_space hasBold cifti (some sp) = SpaceResult.nameError)
    ∧ (∀ filterSpace msg,
        collect_data_space hasBold cifti filterSpace = SpaceResult.valueError msg →
        filterSpace = none) := by
  constructor
  · intro sp
    rfl
  · intro filterSpace msg h
    cases filterSpace with
    | none => rfl
    | some sp =>
      exfalso
      rw [show collect_data_space hasBold cifti (some sp) = SpaceResult.nameError from rfl] at h
      exact SpaceResult.noConfusion h

/-- C8 witness: a preset `space` filter yields the `NameError` outcome
even when BOLD data exist in every allowed space. -/
theorem collect_data_space_filter_nameError_witness :
    collect_data_space (fun _ => true) false (some "MNI152NLin6Asym") =
      SpaceResult.nameError ∧ ((some "MNI152NLin6Asym" : Option String) = none → False) :=
  ⟨(collect_data_space_filter_nameError (fun _ => true) false).1 "MNI152NLin6Asym",
    fun h => Option.noConfusion h⟩

/-! ## `get_preproc_pipeline_info` (`xcp_d/utils/bids.py`, lines 382-409)
and the `--input-type` CLI choices (`xcp_d/cli/run.py`, lines 172-185)

The info dict is modelled as an association list; the `ValueError` raised
for an unsupported `input_type` becomes `Except.error`.  The version read
from `dataset_description.json` is abstracted as `descVersion` (`none`
models a missing description file, which yields `"unknown"`). -/

/-- ASCII single-quote character, used in the Python error message. -/
def squote : String := String.mk [Char.ofNat 39]

/-- The `choices` list of the `--input-type` CLI argument. -/
def input_type_choices : List String := ["fmriprep", "dcan", "hcp", "nibabies"]

/-- Embedding of `get_preproc_pipeline_info`. -/
def get_preproc_pipeline_info (input_type : String) (descVersion : Option String) :
    Except String (List (String × String)) :=
  let version := match descVersion with
    | some v => v
    | none => "unknown"
  let info_dict := [("version", version)]
  if input_type == "fmriprep" then
    Except.ok (info_dict ++
      [("references", "[@esteban2019fmriprep;@esteban2020analysis, RRID:SCR_016216]")])
  else if input_type == "dcan" then
    Except.ok (info_dict ++
      [("references", "[@Feczko_Earl_perrone_Fair_2021;@feczko2021adolescent]")])
  else if input_type == "hcp" then
    Except.ok (info_dict ++ [("references", "[@hcppipelines]")])
  else if input_type == "nibabies" then
    Except.ok (info_dict ++ [("references", "[@goncalves_mathias_2022_7072346]")])
  else
    Except.error ("Unsupported input_type " ++ squote ++ input_type ++ squote)

/-- C6: the supported upstream pipelines are exactly
`{fmriprep, dcan, hcp, nibabies}`: for these the function returns an info
dict with `references` and `version` entries, for every other value it
raises `ValueError`; the CLI restricts `--input-type` to the same four
choices (`input_type_choices`). -/
theorem preproc_pipeline_info_supported_types (input_type : String)
    (descVersion : Option String) :
    (input_type ∈ input_type_choices →
      ∃ d, get_preproc_pipeline_info input_type descVersion = Except.ok d
        ∧ (d.lookup "references").isSome = true
        ∧ (d.lookup "version").isSome = true)
    ∧ (input_type ∉ input_type_choices →
      get_preproc_pipeline_info input_type descVersion =
        Except.error ("Unsupported input_type " ++ squote ++ input_type ++ squote)) := by
  constructor
  · intro h
    simp only [input_type_choices, List.mem_cons, List.not_mem_nil, or_false] at h
    rcases h with h | h | h | h <;> subst h <;>
      exact ⟨_, rfl, by rfl, by rfl⟩
  · intro h
    simp only [input_type_choices, List.mem_cons, List.not_mem_nil, or_false, not_or] at h
    obtain ⟨h1, h2, h3, h4⟩ := h
    simp [get_preproc_pipeline_info, h1, h2, h3, h4]

/-- C6 witness: `fmriprep` is accepted with both entries present, and a
foreign pipeline name is rejected with the ValueError message. -/
theorem preproc_pipeline_info_supported_types_witness :
    (∃ d, get_preproc_pipeline_info "fmriprep" none = Except.ok d
      ∧ (d.lookup "references").isSome = true
      ∧ (d.lookup "version").isSome = true)
    ∧ get_preproc_pipeline_info "spm" none =
      Except.error ("Unsupported input_type " ++ squote ++ "spm" ++ squote) :=
  ⟨(preproc_pipeline_info_supported_types "fmriprep" none).1 (by decide),
    (preproc_pipeline_info_supported_types "spm" none).2 (by decide)⟩

/-! ## `collect_participants` (`xcp_d/utils/bids.py`, lines 49-124)

The BIDS layout is abstracted by the list `layout.get_subjects()`;
Python's `sorted(set(...))` is embedded as insertion into a
strictly-sorted duplicate-free list.  `participant_label` may be `None`,
a single string, or a list of strings; Python truthiness of each is
modelled by `plabelFalsy`. -/

/-- The `participant_label` argument: `None`, a string, or a list. -/
inductive PLabel where
  | noLabel
  | strLabel (s : String)
  | listLabel (l : List String)
  deriving DecidableEq, Repr

/-- Python truthiness test `not participant_label`. -/
def plabelFalsy : PLabel → Bool
  | PLabel.noLabel => true
  | PLabel.strLabel s => s == ""
  | PLabel.listLabel l => l.isEmpty

/-- Normalization `participant_label = [participant_label]` for strings. -/
def plabelList : PLabel → List String
  | PLabel.noLabel => []
  | PLabel.strLabel s => [s]
  | PLabel.listLabel l => l

/-- Lexicographic comparison of char lists by Unicode code point
(the order Python uses to compare and sort strings). -/
def charListLtB : List Char → List Char → Bool
  | [], [] => false
  | [], _ :: _ => true
  | _ :: _, [] => false
  | c :: cs, d :: ds =>
    if c = d then charListLtB cs ds
    else decide (c.toNat < d.toNat)

/-- Python `a < b` on strings. -/
def strLtB (a b : String) : Bool := charListLtB a.data b.data

/-- The order underlying Python `sorted`. -/
def strSortedLt (a b : String) : Prop := strLtB a b = true

theorem charListLtB_irrefl : ∀ (l : List Char), charListLtB l l = false := by
  intro l
  induction l with
  | nil => rfl
  | cons c cs ih => simp [charListLtB, ih]

theorem strLtB_irrefl (a : String) : strLtB a a = false :=
  charListLtB_irrefl a.data

theorem charListLtB_asymm_eq : ∀ (l1 l2 : List Char),
    charListLtB l1 l2 = false → charListLtB l2 l1 = false → l1 = l2 := by
  intro l1
  induction l1 with
  | nil =>
    intro l2 h1 _
    cases l2 with
    | nil => rfl
    | cons d ds => exact absurd h1 (by simp [charListLtB])
  | cons c cs ih =>
    intro l2 h1 h2
    cases l2 with
    | nil => exact absurd h2 (by simp [charListLtB])
    | cons d ds =>
      by_cases hcd : c = d
      · subst hcd
        simp only [charListLtB, if_pos rfl] at h1 h2
        rw [ih ds h1 h2]
      · exfalso
        have h1' : ¬ c.toNat < d.toNat := by
          simpa [charListLtB, hcd] using h1
        have h2' : ¬ d.toNat < c.toNat := by
          simpa [charListLtB, Ne.symm hcd] using h2
        have heq : c.toNat = d.toNat := by omega
        exact hcd (Char.ext (UInt32.toNat.inj heq))

theorem charListLtB_trans : ∀ (l1 l2 l3 : List Char),
    charListLtB l1 l2 = true → charListLtB l2 l3 = true → charListLtB l1 l3 = true := by
  intro l1
  induction l1 with
  | nil =>
    intro l2 l3 h1 h2
    cases l2 with
    | nil => exact absurd h1 (by simp [charListLtB])
    | cons d ds =>
      cases l3 with
      | nil => exact absurd h2 (by simp [charListLtB])
      | cons e es => simp [charListLtB]
  | cons c cs ih =>
    intro l2 l3 h1 h2
    cases l2 with
    | nil => exact absurd h1 (by simp [charListLtB])
    | cons d ds =>
      cases l3 with
      | nil => exact absurd h2 (by simp [charListLtB])
      | cons e es =>
        by_cases hcd : c = d
        · subst hcd
          simp only [charListLtB, if_pos rfl] at h1
          by_cases hde : c = e
          · subst hde
            simp only [charListLtB, if_pos rfl] at h2 ⊢
            exact ih ds es h1 h2
          · simp only [charListLtB, hde, if_false] at h2 ⊢
            exact h2
        · simp only [charListLtB, hcd, if_false, decide_eq_true_iff] at h1
          by_cases hde : d = e
          · subst hde
            simp only [charListLtB, hcd, if_false, decide_eq_true_iff]
            exact h1
          · simp only [charListLtB, hde, if_false, decide_eq_true_iff] at h2
            have hce : c.toNat < e.toNat := lt_trans h1 h2
            by_cases hc3 : c = e
            · subst hc3
              omega
            · simp only [charListLtB, hc3, if_false, decide_eq_true_iff]
              exact hce

theorem strLtB_trans (a b c : String) (h1 : strLtB a b = true) (h2 : strLtB b c = true) :
    strLtB a c = true :=
  charListLtB_trans a.data b.data c.data h1 h2

theorem strLtB_of_ne_of_not_lt (a b : String) (h1 : a ≠ b) (h2 : strLtB a b = false) :
    strLtB b a = true := by
  cases h3 : strLtB b a with
  | true => rfl
  | false =>
    exfalso
    apply h1
    have hd := charListLtB_asymm_eq a.data b.data h2 h3
    cases a; cases b
    exact congrArg String.mk hd

theorem strLtB_ne (a b : String) (h : strLtB a b = true) : a ≠ b := by
  intro he
  subst he
  rw [strLtB_irrefl] at h
  exact Bool.false_ne_true h

/-- Insert into a sorted list, skipping duplicates. -/
def insertSortedNoDup (a : String) : List String → List String
  | [] => [a]
  | b :: rest =>
    if a = b then b :: rest
    else if strLtB a b then a :: b :: rest
    else b :: insertSortedNoDup a rest

/-- Python `sorted(set(l))`: sorted duplicate-free list of the elements. -/
def sortedUnique (l : List String) : List String :=
  l.foldr insertSortedNoDup []

theorem insertSortedNoDup_eq (a b : String) (rest : List String) (h : a = b) :
    insertSortedNoDup a (b :: rest) = b :: rest := by
  simp [insertSortedNoDup, h]

theorem insertSortedNoDup_lt (a b : String) (rest : List String)
    (h1 : a ≠ b) (h2 : strLtB a b = true) :
    insertSortedNoDup a (b :: rest) = a :: b :: rest := by
  simp [insertSortedNoDup, h1, h2]

theorem insertSortedNoDup_gt (a b : String) (rest : List String)
    (h1 : a ≠ b) (h2 : strLtB a b = false) :
    insertSortedNoDup a (b :: rest) = b :: insertSortedNoDup a rest := by
  simp [insertSortedNoDup, h1, h2]

theorem mem_insertSortedNoDup (a x : String) :
    ∀ (l : List String), x ∈ insertSortedNoDup a l ↔ x = a ∨ x ∈ l := by
  intro l
  induction l with
  | nil => simp [insertSortedNoDup]
  | cons b rest ih =>
    by_cases hab : a = b
    · rw [insertSortedNoDup_eq a b rest hab]
      subst hab
      simp only [List.mem_cons]
      tauto
    · cases hlt : strLtB a b with
      | true =>
        rw [insertSortedNoDup_lt a b rest hab hlt]
        simp only [List.mem_cons]
      | false =>
        rw [insertSortedNoDup_gt a b rest hab hlt]
        simp only [List.mem_cons, ih]
        tauto

theorem sorted_insertSortedNoDup (a : String) :
    ∀ (l : List String), List.Sorted strSortedLt l →
      List.Sorted strSortedLt (insertSortedNoDup a l) := by
  intro l
  induction l with
  | nil => intro _; simp [insertSortedNoDup, List.sorted_singleton]
  | cons b rest ih =>
    intro h
    rw [List.sorted_cons] at h
    obtain ⟨hb, hrest⟩ := h
    by_cases hab : a = b
    · rw [insertSortedNoDup_eq a b rest hab]
      rw [List.sorted_cons]
      exact ⟨hb, hrest⟩
    · cases hlt : strLtB a b with
      | true =>
        rw [insertSortedNoDup_lt a b rest hab hlt]
        rw [List.sorted_cons]
        refine ⟨?_, ?_⟩
        · intro x hx
          rcases List.mem_cons.mp hx with hx | hx
          · exact hx ▸ hlt
          · exact strLtB_trans a b x hlt (hb x hx)
        · rw [List.sorted_cons]
          exact ⟨hb, hrest⟩
      | false =>
        have hba : strLtB b a = true := strLtB_of_ne_of_not_lt a b hab hlt
        rw [insertSortedNoDup_gt a b rest hab hlt]
        rw [List.sorted_cons]
        refine ⟨?_, ih hrest⟩
        intro x hx
        rcases (mem_insertSortedNoDup a x rest).mp hx with hx | hx
        · exact hx ▸ hba
        · exact hb x hx

theorem sortedUnique_sorted (l : List String) :
    List.Sorted strSortedLt (sortedUnique l) := by
  induction l with
  | nil => simp [sortedUnique, List.sorted_nil]
  | cons a rest ih => exact sorted_insertSortedNoDup a _ ih

theorem mem_sortedUnique (x : String) (l : List String) :
    x ∈ sortedUnique l ↔ x ∈ l := by
  induction l with
  | nil => simp [sortedUnique]
  | cons a rest ih =>
    show x ∈ insertSortedNoDup a (sortedUnique rest) ↔ x ∈ a :: rest
    rw [mem_insertSortedNoDup, ih, List.mem_cons]

theorem sorted_nodup {l : List String} (h : List.Sorted strSortedLt l) : l.Nodup :=
  List.Pairwise.imp (fun hab => strLtB_ne _ _ hab) h

/-- The `sub-` stripping step `sub[4:] if sub.startswith("sub-") else sub`. -/
def stripSubEntity (sub : String) : String :=
  if ("sub-".data).isPrefixOf sub.data then String.mk (sub.data.drop 4) else sub

/-- Embedding of `collect_participants`: `all_subjects` stands for
`layout.get_subjects()`; `BIDSError` becomes `Except.error` (the strict
branch raises; the non-strict branch only warns and returns). -/
def collect_participants (all_subjects : List String)
    (participant_label : PLabel) (strict : Bool) : Except String (List String) :=
  let all_participants := sortedUnique all_subjects
  if all_participants.isEmpty then
    Except.error
      ("Could not find participants. Please make sure the BIDS derivatives "
        ++ "are accessible to Docker/ are in BIDS directory structure.")
  else if plabelFalsy participant_label then
    Except.ok all_participants
  else
    let deduped := sortedUnique ((plabelList participant_label).map stripSubEntity)
    let found_label := deduped.filter (fun x => decide (x ∈ all_participants))
    if found_label.isEmpty then
      Except.error
        ("Could not find participants [" ++ String.intercalate ", " deduped ++ "]")
    else
      let notfound_label := deduped.filter (fun x => decide (x ∉ all_participants))
      if !notfound_label.isEmpty && strict then
        Except.error
          ("Some participants were not found: " ++ String.intercalate ", " notfound_label)
      else
        Except.ok found_label

/-- C9: whenever `collect_participants` returns (rather than raising
`BIDSError`), the returned list is nonempty, sorted (in the string order
Python's `sorted` uses), duplicate-free, and a subset of the dataset's
subject labels. -/
theorem collect_participants_ok_nonempty_sorted_subset
    (all_subjects : List String) (participant_label : PLabel) (strict : Bool)
    (l : List String)
    (h : collect_participants all_subjects participant_label strict = Except.ok l) :
    l ≠ [] ∧ List.Sorted strSortedLt l ∧ l.Nodup ∧ (∀ x ∈ l, x ∈ all_subjects) := by
  unfold collect_participants at h
  by_cases h1 : (sortedUnique all_subjects).isEmpty
  · rw [if_pos h1] at h
    exact Except.noConfusion h
  · rw [if_neg h1] at h
    by_cases h2 : plabelFalsy participant_label = true
    · rw [if_pos h2] at h
      obtain rfl : sortedUnique all_subjects = l := Except.ok.inj h
      refine ⟨?_, sortedUnique_sorted all_subjects, ?_, ?_⟩
      · intro hnil
        rw [hnil] at h1
        exact h1 rfl
      · exact sorted_nodup (sortedUnique_sorted all_subjects)
      · intro x hx
        exact (mem_sortedUnique x all_subjects).mp hx
    · rw [if_neg h2] at h
      by_cases h3 : (List.filter
          (fun x => decide (x ∈ sortedUnique all_subjects))
          (sortedUnique ((plabelList participant_label).map stripSubEntity))).isEmpty
      · rw [if_pos h3] at h
        exact Except.noConfusion h
      · rw [if_neg h3] at h
        by_cases h4 : (!(List.filter
            (fun x => decide (x ∉ sortedUnique all_subjects))
            (sortedUnique ((plabelList participant_label).map stripSubEntity))).isEmpty
            && strict) = true
        · rw [if_pos h4] at h
          exact Except.noConfusion h
        · rw [if_neg h4] at h
          obtain rfl := Except.ok.inj h
          have hsorted : List.Sorted strSortedLt
              (List.filter (fun x => decide (x ∈ sortedUnique all_subjects))
                (sortedUnique ((plabelList participant_label).map stripSubEntity))) :=
            List.Pairwise.filter _ (sortedUnique_sorted _)
          refine ⟨?_, hsorted, sorted_nodup hsorted, ?_⟩
          · intro hnil
            rw [hnil] at h3
            exact h3 rfl
          · intro x hx
            have hx2 := (List.mem_filter.mp hx).2
            have hx3 : x ∈ sortedUnique all_subjects := of_decide_eq_true hx2
            exact (mem_sortedUnique x all_subjects).mp hx3

/-- C9 witness: requesting `["sub-02", "02"]` from a dataset with
subjects `01` and `02` returns the nonempty sorted duplicate-free subset
`["02"]`. -/
theorem collect_participants_ok_nonempty_sorted_subset_witness :
    (["02"] : List String) ≠ [] ∧ List.Sorted strSortedLt (["02"] : List String)
      ∧ (["02"] : List String).Nodup
      ∧ (∀ x ∈ (["02"] : List String), x ∈ ["01", "02"]) :=
  collect_participants_ok_nonempty_sorted_subset ["01", "02"]
    (PLabel.listLabel ["sub-02", "02"]) false ["02"] (by rfl)

/-! ## `write_dataset_description` (`xcp_d/utils/bids.py`, lines 329-379)

The two JSON files are modelled by `DsetDesc` values (`none` = the file
does not exist).  The function's return value is the final contents of
`<xcpd_dir>/dataset_description.json` together with whether the
version-mismatch warning was logged; the `assert` on `DatasetType` and
the dictionary/list accesses on the existing output description become
`Except.error` outcomes (an exception propagates without writing
anything).  `Version(...).public` is abstracted by `publicOf`. -/

/-- One entry of the `GeneratedBy` list. -/
structure GeneratedByEntry where
  pipelineName : String
  pipelineVersion : String
  codeURL : String
  deriving DecidableEq, Repr

/-- The fields of `dataset_description.json` touched by the function
(`none` = key absent). -/
structure DsetDesc where
  datasetType : Option String
  dsetName : Option String
  generatedBy : Option (List GeneratedByEntry)
  howToAcknowledge : Option String
  deriving DecidableEq, Repr

/-- Embedding of `write_dataset_description`.  Returns
`(final contents of the output dataset_description.json, warned)`. -/
def write_dataset_description (publicOf : String → String)
    (fmri_desc xcpd_desc : Option DsetDesc) (version downloadURL : String) :
    Except String (Option DsetDesc × Bool) :=
  let step1 : Except String DsetDesc :=
    match fmri_desc with
    | none => Except.ok ⟨none, none, none, none⟩
    | some d =>
      if d.datasetType = some "derivative" then Except.ok d
      else Except.error "AssertionError: DatasetType is not derivative"
  match step1 with
  | Except.error e => Except.error e
  | Except.ok base =>
    let dset_desc : DsetDesc :=
      { base with
        dsetName := some "XCP-D: A Robust Postprocessing Pipeline of fMRI data",
        generatedBy := some
          ({ pipelineName := "xcp_d", pipelineVersion := version,
             codeURL := downloadURL } :: base.generatedBy.getD []),
        howToAcknowledge :=
          some "Include the generated boilerplate in the methods section." }
    match xcpd_desc with
    | some old =>
      match old.generatedBy with
      | none => Except.error "KeyError: GeneratedBy"
      | some [] => Except.error "IndexError: list index out of range"
      | some (entry :: _) =>
        Except.ok (some old, publicOf version != publicOf entry.pipelineVersion)
    | none => Except.ok (some dset_desc, false)

/-- C10: the output `dataset_description.json` is never overwritten: when
it already exists, every non-exceptional run leaves its contents exactly
as they were (at most setting the version-mismatch warning flag), and a
new file is written only when none exists (in which case no warning is
logged). -/
theorem write_dataset_description_no_overwrite (publicOf : String → String)
    (fmri_desc : Option DsetDesc) (old : DsetDesc) (version downloadURL : String) :
    (∀ res, write_dataset_description publicOf fmri_desc (some old) version downloadURL
        = Except.ok res → res.1 = some old)
    ∧ (∀ res, write_dataset_description publicOf fmri_desc none version downloadURL
        = Except.ok res → res.1.isSome = true ∧ res.2 = false) := by
  constructor
  · intro res h
    unfold write_dataset_description at h
    cases fmri_desc with
    | none =>
      dsimp only at h
      cases hg : old.generatedBy with
      | none => rw [hg] at h; exact Except.noConfusion h
      | some entries =>
        cases entries with
        | nil => rw [hg] at h; exact Except.noConfusion h
        | cons entry tail =>
          rw [hg] at h
          obtain rfl := Except.ok.inj h
          rfl
    | some d =>
      dsimp only at h
      by_cases hd : d.datasetType = some "derivative"
      · rw [if_pos hd] at h
        dsimp only at h
        cases hg : old.generatedBy with
        | none => rw [hg] at h; exact Except.noConfusion h
        | some entries =>
          cases entries with
          | nil => rw [hg] at h; exact Except.noConfusion h
          | cons entry tail =>
            rw [hg] at h
            obtain rfl := Except.ok.inj h
            rfl
      · rw [if_neg hd] at h
        exact Except.noConfusion h
  · intro res h
    unfold write_dataset_description at h
    cases fmri_desc with
    | none =>
      dsimp only at h
      obtain rfl := Except.ok.inj h
      exact ⟨rfl, rfl⟩
    | some d =>
      dsimp only at h
      by_cases hd : d.datasetType = some "derivative"
      · rw [if_pos hd] at h
        dsimp only at h
        obtain rfl := Except.ok.inj h
        exact ⟨rfl, rfl⟩
      · rw [if_neg hd] at h
        exact Except.noConfusion h

/-- C10 witness: with an existing output description generated by version
`20.2.1`, running at version `0.2.0` keeps the old contents (flagging the
version mismatch); the theorem is applied at that concrete input. -/
theorem write_dataset_description_no_overwrite_witness :
    ((some (⟨some "derivative", some "old",
        some [⟨"fmriprep", "20.2.1", "someurl"⟩], none⟩ : DsetDesc), true) :
      Option DsetDesc × Bool).1
      = some (⟨some "derivative", some "old",
          some [⟨"fmriprep", "20.2.1", "someurl"⟩], none⟩ : DsetDesc) :=
  (write_dataset_description_no_overwrite (fun v => v) none
      ⟨some "derivative", some "old", some [⟨"fmriprep", "20.2.1", "someurl"⟩], none⟩
      "0.2.0" "someurl").1
    (some ⟨some "derivative", some "old",
      some [⟨"fmriprep", "20.2.1", "someurl"⟩], none⟩, true) (by rfl)
